import Mathlib

/-!
Shallow embedding of the job-tracker backend (Express + Prisma + bcryptjs +
jsonwebtoken) for checking the natural-language specification against the
code.

Source layout:
  * jobController (createJob, getJobs, getJobById, updateJob, deleteJob)
  * userController (createUser, listUsers, updateUser, deleteUser, loginUser)
  * authMiddleware
  * validateZod middleware and jobSchema (zod)

Conventions of the embedding:
  * JavaScript `undefined` is `Option.none`; a missing object property reads
    as `none`.
  * The Prisma client and schema.prisma are not under src/; the store is
    modelled from the spec (section 3: User has a unique email and an opaque
    unique id; Job has a required owning user id). Prisma ignores
    `undefined` values inside `where` filters, and rejects a `create` whose
    required argument is `undefined`.
  * bcryptjs and jsonwebtoken are third-party libraries; they are modelled
    from the spec (sections 4.1 and 4.2) with their algebraic interface:
    hashing is injective-tagging here (one-wayness is irrelevant to the
    claims), and token verification is an abstract function where only its
    success/failure matters.
-/

/-- A stored User record, as created by `prisma.user.create` in createUser:
data is `email`, `password` (the bcrypt hash string), and optional `name`;
the id is generated by the store. -/
structure User where
  id : Nat
  email : String
  password : String
  name : Option String
  deriving Repr, DecidableEq

/-- A stored Job record. The Prisma schema is not under src/; fields follow
spec section 3: required title, company, status and owning user id, optional
description, notes, deadline. -/
structure Job where
  id : String
  title : String
  company : String
  status : String
  description : Option String
  notes : Option String
  deadline : Option String
  userId : Nat
  deriving Repr, DecidableEq

/-- The backing store: User and Job tables plus id generators. -/
structure DB where
  users : List User
  jobs : List Job
  nextUserId : Nat
  nextJobId : Nat
  deriving Repr, DecidableEq

/-- The object authMiddleware attaches to `req.user`: the decoded JWT
payload. loginUser signs the payload object whose single data property is
`userId` (the literal `jwt.sign` call passes an object with the one key
`userId` set to `user.id`), so the decoded object carries `userId` (the
registered claims iat and exp added by the library play no role in any
claim and are omitted). Crucially, the decoded object has NO property named
`id`. -/
structure UserCtx where
  userId : Nat
  deriving Repr, DecidableEq

/-- JavaScript property read `req.user.id` as performed by every job
controller (`const userId = (req as any).user.id`): the decoded payload has
no `id` property — its key is `userId` — so the read evaluates to
`undefined`, i.e. `none`, whatever the payload holds. -/
def UserCtx.idProp (_ : UserCtx) : Option Nat := none

/-- One formatted validation error as produced by the validateZod
middleware: `path` is `issue.path.join('.')` (a single key for this flat
schema) and `message` the zod message. -/
structure Issue where
  path : String
  message : String
  deriving Repr, DecidableEq

/-- Response bodies the embedded handlers can produce (`res.json(...)`). -/
inductive RespBody where
  | job (j : Job)
  | jobs (l : List Job)
  | user (u : User)
  | users (l : List User)
  | msg (m : String)
  | err (e : String)
  | errors (issues : List Issue)
  deriving Repr, DecidableEq

/-- Outcome of an Express middleware: either it ends the response itself
(`halt` — `next()` is not called, so the downstream handler is never
invoked) or it calls `next()` and hands the (possibly rewritten) request
on (`proceed`). -/
inductive MwResult (α : Type) where
  | halt (status : Nat) (body : RespBody)
  | proceed (a : α)
  deriving Repr, DecidableEq

section Store

/-- Filter predicate for `prisma.job.findFirst(\x7bwhere: \x7bid, userId\x7d\x7d)` and
friends: Prisma ignores an `undefined` (`none`) filter value, so a `none`
condition matches every record. -/
def matchesFilters (idF : Option String) (uidF : Option Nat) (j : Job) : Bool :=
  (match idF with
   | none => true
   | some i => j.id == i) &&
  (match uidF with
   | none => true
   | some u => j.userId == u)

/-- Model of `prisma.job.findMany` with an optional `userId` filter
(`undefined` means unfiltered). -/
def jobFindMany (db : DB) (uidF : Option Nat) : List Job :=
  db.jobs.filter (matchesFilters none uidF)

/-- Model of `prisma.job.findFirst` with optional `id` and `userId`
filters. -/
def jobFindFirst (db : DB) (idF : Option String) (uidF : Option Nat) : Option Job :=
  db.jobs.find? (matchesFilters idF uidF)

/-- The data object passed to `prisma.job.create` by createJob. The JS
object literal has exactly the keys title, description, company, status,
userId; `none` in an optional field stands for an absent / undefined key.
`userId` is `Option Nat` because createJob computes it by the property read
`(req as any).user.id`, which can be `undefined`. -/
structure JobCreateData where
  title : String
  description : Option String
  company : String
  status : String
  notes : Option String
  deadline : Option String
  userId : Option Nat
  deriving Repr, DecidableEq

/-- Model of `prisma.job.create`. Spec section 3 makes the owning user id a
required Job field, so Prisma rejects a create whose `userId` argument is
`undefined` (the client throws; the controller catch turns that into a
500). Otherwise a record with a fresh id is appended. -/
def jobCreate (db : DB) (d : JobCreateData) : Except String (DB × Job) :=
  match d.userId with
  | none => .error "Argument userId is missing"
  | some uid =>
    let j : Job :=
      { id := toString db.nextJobId, title := d.title, company := d.company,
        status := d.status, description := d.description,
        notes := d.notes, deadline := d.deadline, userId := uid }
    .ok ({ db with jobs := db.jobs ++ [j], nextJobId := db.nextJobId + 1 }, j)

/-- The data object passed to `prisma.job.update` by updateJob: exactly the
keys title, description, company, status (notes and deadline are absent
from the object literal, so those columns are left untouched). -/
structure JobUpdateData where
  title : String
  description : Option String
  company : String
  status : String
  deriving Repr, DecidableEq

/-- Model of `prisma.job.update(\x7bwhere: \x7bid\x7d, data\x7d)`: rewrite the record
with the given id (ids are unique) and return the updated record; `none`
when no record has that id (Prisma would throw). -/
def jobUpdate (db : DB) (i : String) (d : JobUpdateData) : Option (DB × Job) :=
  match db.jobs.find? (fun j => j.id == i) with
  | none => none
  | some j =>
    let j2 : Job :=
      { j with title := d.title, description := d.description,
               company := d.company, status := d.status }
    some ({ db with jobs := db.jobs.map (fun k => if k.id == i then j2 else k) }, j2)

/-- Model of `prisma.job.delete(\x7bwhere: \x7bid\x7d\x7d)`: remove the record with
the given id. -/
def jobDelete (db : DB) (i : String) : DB :=
  { db with jobs := db.jobs.filter (fun j => !(j.id == i)) }

/-- The data object passed to `prisma.user.create` by createUser:
`password` already holds the bcrypt hash computed by the controller. -/
structure UserCreateData where
  email : String
  password : String
  name : Option String
  deriving Repr, DecidableEq

/-- Model of `prisma.user.create`. Spec section 3 makes email unique, so a
duplicate email makes the client throw (the controller catch turns that
into a 500); otherwise a record with a fresh id is appended. -/
def userCreate (db : DB) (d : UserCreateData) : Except String (DB × User) :=
  if db.users.any (fun u => u.email == d.email) then
    .error "Unique constraint failed on email"
  else
    let u : User := { id := db.nextUserId, email := d.email,
                      password := d.password, name := d.name }
    .ok ({ db with users := db.users ++ [u], nextUserId := db.nextUserId + 1 }, u)

end Store

section Libraries

/-- Modelled from the spec: bcryptjs hashing is library code, not under
src/. Spec section 4.1: a salted one-way hash stored as a string. The model
keeps the algebraic interface — the hash is a tagged string distinct from
the plaintext, and compare recognises exactly the matching plaintext.
One-wayness plays no role in any claim. -/
def bcryptHash (plaintext : String) : String :=
  "$2a$10$" ++ plaintext

/-- Modelled from the spec: `bcrypt.compare(plaintext, hash)` returns
whether the hash was produced from this plaintext. -/
def bcryptCompare (plaintext stored : String) : Bool :=
  stored == bcryptHash plaintext

/-- Modelled from the spec: `jwt.sign` embeds its payload object as the
claims returned by a later successful `jwt.verify` (spec section 4.2). The
payload object loginUser passes has the single key `userId`. -/
def jwtSignPayload (uid : Nat) : UserCtx :=
  { userId := uid }

end Libraries

section Controllers

/-- The validated job request body handlers receive after validateZod
rewrote `req.body` with the parsed data: title, company, status present,
description, notes, deadline optional. -/
structure JobBody where
  title : String
  company : String
  status : String
  description : Option String
  notes : Option String
  deadline : Option String
  deriving Repr, DecidableEq

/-- The data object createJob builds for `prisma.job.create`: the JS
literal lists exactly title, description, company, status (destructured
from the validated body — notes and deadline are never read) and userId
from the property read `(req as any).user.id`. -/
def createJobData (ctx : UserCtx) (body : JobBody) : JobCreateData :=
  { title := body.title, description := body.description,
    company := body.company, status := body.status,
    notes := none, deadline := none, userId := UserCtx.idProp ctx }

/-- createJob (POST /jobs): create a job from the validated body, owner
taken from `req.user.id`; 201 with the created record, 500 when the store
throws. -/
def createJob (ctx : UserCtx) (body : JobBody) (db : DB) : (Nat × RespBody) × DB :=
  match jobCreate db (createJobData ctx body) with
  | .ok (db2, j) => ((201, RespBody.job j), db2)
  | .error _ => ((500, RespBody.err "Failed to create job"), db)

/-- getJobs (GET /jobs): `prisma.job.findMany(\x7bwhere: \x7buserId\x7d\x7d)` with
userId from `req.user.id`, then `res.json(jobs)` (status 200). -/
def getJobs (ctx : UserCtx) (db : DB) : Nat × RespBody :=
  (200, RespBody.jobs (jobFindMany db (UserCtx.idProp ctx)))

/-- getJobById (GET /jobs/:id): findFirst by id and userId; 404 "Job not
found" when absent, else 200 with the record. -/
def getJobById (ctx : UserCtx) (i : String) (db : DB) : Nat × RespBody :=
  match jobFindFirst db (some i) (UserCtx.idProp ctx) with
  | none => (404, RespBody.err "Job not found")
  | some j => (200, RespBody.job j)

/-- The data object updateJob builds for `prisma.job.update`: exactly
title, description, company, status from the validated body. -/
def updateJobData (body : JobBody) : JobUpdateData :=
  { title := body.title, description := body.description,
    company := body.company, status := body.status }

/-- updateJob (PUT /jobs/:id): findFirst by id and userId; 404 when absent,
else update the record by id and answer 200 with the updated record (500
when the store throws during the update). -/
def updateJob (ctx : UserCtx) (i : String) (body : JobBody) (db : DB) :
    (Nat × RespBody) × DB :=
  match jobFindFirst db (some i) (UserCtx.idProp ctx) with
  | none => ((404, RespBody.err "Job not found"), db)
  | some _ =>
    match jobUpdate db i (updateJobData body) with
    | some (db2, j2) => ((200, RespBody.job j2), db2)
    | none => ((500, RespBody.err "Failed to update job"), db)

/-- deleteJob (DELETE /jobs/:id): findFirst by id and userId; 404 when
absent, else delete by id and answer 200 with a message. -/
def deleteJob (ctx : UserCtx) (i : String) (db : DB) : (Nat × RespBody) × DB :=
  match jobFindFirst db (some i) (UserCtx.idProp ctx) with
  | none => ((404, RespBody.err "Job not found"), db)
  | some _ => ((200, RespBody.msg "Job deleted"), jobDelete db i)

/-- createUser (POST /users): `if (!email || !password)` answers 400 (the
falsy strings are `undefined` and the empty string), otherwise the password
is hashed with bcrypt and the user created; 201 with the record the store
returns, 500 when the store throws. -/
def createUser (email password name : Option String) (db : DB) :
    (Nat × RespBody) × DB :=
  match email, password with
  | some e, some p =>
    if e == "" || p == "" then
      ((400, RespBody.err "Email and password are required."), db)
    else
      match userCreate db { email := e, password := bcryptHash p, name := name } with
      | .ok (db2, u) => ((201, RespBody.user u), db2)
      | .error _ => ((500, RespBody.err "Failed to create user"), db)
  | _, _ => ((400, RespBody.err "Email and password are required."), db)

/-- listUsers (GET /users): `prisma.user.findMany()` with no filter, then
`res.json(users)` — every stored record, with every field, verbatim. -/
def listUsers (db : DB) : Nat × RespBody :=
  (200, RespBody.users db.users)

/-- Body of a login response: a token on success, the generic error
otherwise. The token is represented by its signed payload (spec section
4.2: verification returns the embedded claims). -/
inductive LoginResult where
  | invalidCredentials
  | token (payload : UserCtx)
  deriving Repr, DecidableEq

/-- loginUser (POST /login): findUnique by email, compare the password with
the stored hash, and sign a token whose payload object has the single key
`userId` holding `user.id`; 401 "Invalid credentials" on either failure. -/
def loginUser (email password : String) (db : DB) : Nat × LoginResult :=
  match db.users.find? (fun u => u.email == email) with
  | none => (401, LoginResult.invalidCredentials)
  | some user =>
    if bcryptCompare password user.password then
      (200, LoginResult.token (jwtSignPayload user.id))
    else
      (401, LoginResult.invalidCredentials)

end Controllers

section Middleware

/-- Token extraction `authHeader.split(' ')[1]` from authMiddleware; a JS
out-of-range index reads `undefined`, and `jwt.verify(undefined, ...)`
throws, which the middleware turns into the same 401, so the missing index
is folded into the failing-verification case. -/
def bearerToken (h : String) : String :=
  ((h.splitOn " ").get? 1).getD ""

/-- authMiddleware: require an Authorization header that starts with the
literal "Bearer ", verify the token after the space, attach the decoded
payload and continue; otherwise 401 with the fixed body. The verifier is a
parameter: `jwt.verify` is library code (spec section 4.2), and `none`
stands for any verification failure (missing, malformed, expired, bad
signature). -/
def authMiddleware (verify : String → Option UserCtx) (authHeader : Option String) :
    MwResult UserCtx :=
  match authHeader with
  | none => MwResult.halt 401 (RespBody.err "Unauthorized")
  | some h =>
    if h.startsWith "Bearer " then
      match verify (bearerToken h) with
      | some decoded => MwResult.proceed decoded
      | none => MwResult.halt 401 (RespBody.err "Unauthorized")
    else
      MwResult.halt 401 (RespBody.err "Unauthorized")

end Middleware

section Validation

/-- Enum values accepted by jobSchema, verbatim from the zod literal —
including the misspelled fifth value. -/
def jobStatusValues : List String :=
  ["WISHLIST", "APPLIED", "INTERVIEW", "OFFER", "REJECTEDz"]

/-- The raw (unvalidated) job request body: each field is a present string
or absent. Values of non-string JSON types would fail the same checks with
a type issue on the same path; string-or-absent suffices for every claim. -/
structure RawJobBody where
  title : Option String
  company : Option String
  status : Option String
  description : Option String
  notes : Option String
  deadline : Option String
  deriving Repr, DecidableEq

/-- Issues zod raises for a required `z.string().min(1, msg)` field: a
missing key gives the invalid-type issue "Required" on that path, an empty
string gives the custom min-length message on that path. -/
def requiredStringIssues (field errMsg : String) : Option String → List Issue
  | none => [{ path := field, message := "Required" }]
  | some s => if s.length = 0 then [{ path := field, message := errMsg }] else []

/-- Issues zod raises for the `z.enum` status field: missing gives
"Required", a value outside the enum literal list gives an invalid-enum
issue on path "status" (the exact library message text is abstracted; only
the path matters to the claims). -/
def statusIssues : Option String → List Issue
  | none => [{ path := "status", message := "Required" }]
  | some s =>
    if jobStatusValues.contains s then []
    else [{ path := "status", message := "Invalid enum value" }]

/-- All issues `jobSchema.safeParse` collects, in field declaration order
(title, company, status; description, notes, deadline are optional strings
and never fail on string-or-absent input). -/
def jobSchemaIssues (b : RawJobBody) : List Issue :=
  requiredStringIssues "title" "Title is required" b.title ++
  requiredStringIssues "company" "Company is required" b.company ++
  statusIssues b.status

/-- Model of `jobSchema.safeParse`: the parsed body when no issue was
collected, the issue list otherwise. When the issue list is empty the three
required fields are necessarily present, so the `getD` defaults are never
reached. -/
def jobSchemaParse (b : RawJobBody) : Except (List Issue) JobBody :=
  if jobSchemaIssues b = [] then
    .ok { title := b.title.getD "", company := b.company.getD "",
          status := b.status.getD "", description := b.description,
          notes := b.notes, deadline := b.deadline }
  else
    .error (jobSchemaIssues b)

/-- validateZod (applied to jobSchema, the only schema the claims touch):
on a failed parse respond 400 with the formatted issue list and stop — the
handler is not invoked; on success replace `req.body` with the parsed data
and call `next()`. -/
def validateZod (b : RawJobBody) : MwResult JobBody :=
  match jobSchemaParse b with
  | .error issues => MwResult.halt 400 (RespBody.errors issues)
  | .ok d => MwResult.proceed d

/-- Characterisation of a required body field that is absent or the empty
string — the two request shapes claim C5 quantifies over. -/
def missingOrEmpty (o : Option String) : Prop :=
  o = none ∨ o = some ""

end Validation

/-- C1: the spec claims every successful (201) POST /jobs stores the
authenticated user as owner. In the code the token payload carries the user
id under the key `userId`, but createJob reads `(req as any).user.id`,
which is undefined; the owner handed to the store is therefore undefined
and the create is rejected, so every authenticated POST /jobs — whatever
the token payload, the validated body and the store state — answers 500
with the create-failure body and leaves the store unchanged. No 201
response with the owner set to the callers id is ever produced. -/
theorem createJob_owner_undefined_always_500 (ctx : UserCtx) (body : JobBody) (db : DB) :
    createJob ctx body db = ((500, RespBody.err "Failed to create job"), db) := rfl

/-- C2: the spec claims GET /jobs returns exactly the jobs owned by the
tokens user. In the code getJobs filters `findMany` by the undefined
property read `req.user.id`; Prisma drops the undefined filter, so the
handler returns every stored job. On a store holding one job owned by user
2, a request authenticated as user 1 receives that job with status 200. -/
theorem getJobs_leaks_other_users_jobs :
    getJobs (jwtSignPayload 1)
      ⟨[], [⟨"7", "Eng", "Acme", "WISHLIST", none, none, none, 2⟩], 3, 8⟩
      = (200, RespBody.jobs [⟨"7", "Eng", "Acme", "WISHLIST", none, none, none, 2⟩]) ∧
    Job.userId ⟨"7", "Eng", "Acme", "WISHLIST", none, none, none, 2⟩ ≠
      UserCtx.userId (jwtSignPayload 1) := by
  decide

/-- C3: the spec claims GET/PUT/DELETE on another users job id answer 404
exactly like a nonexistent id. In the code the ownership half of the
`findFirst` filter is the undefined read `req.user.id`, which Prisma drops,
so a request authenticated as user 2 against the job with id "7" owned by
user 1 is served with 200: GET returns the foreign record, PUT updates it,
DELETE removes it. -/
theorem crossUser_requests_succeed_not_404 :
    getJobById (jwtSignPayload 2) "7"
      ⟨[], [⟨"7", "Eng", "Acme", "WISHLIST", none, none, none, 1⟩], 3, 8⟩
      = (200, RespBody.job ⟨"7", "Eng", "Acme", "WISHLIST", none, none, none, 1⟩) ∧
    (updateJob (jwtSignPayload 2) "7" ⟨"X", "Y", "APPLIED", none, none, none⟩
      ⟨[], [⟨"7", "Eng", "Acme", "WISHLIST", none, none, none, 1⟩], 3, 8⟩).1.1 = 200 ∧
    (deleteJob (jwtSignPayload 2) "7"
      ⟨[], [⟨"7", "Eng", "Acme", "WISHLIST", none, none, none, 1⟩], 3, 8⟩).1
      = (200, RespBody.msg "Job deleted") ∧
    Job.userId ⟨"7", "Eng", "Acme", "WISHLIST", none, none, none, 1⟩ ≠
      UserCtx.userId (jwtSignPayload 2) := by
  decide

/-- C4: the claim says the validator accepts the corrected spelling
REJECTED and rejects everything outside the corrected five-value set. The
zod literal in the source spells the fifth value REJECTEDz, so the parser
rejects REJECTED with an issue on path "status" and accepts REJECTEDz. -/
theorem jobSchema_enum_has_typo :
    jobSchemaParse ⟨some "Eng", some "Acme", some "REJECTED", none, none, none⟩
      = .error [{ path := "status", message := "Invalid enum value" }] ∧
    jobSchemaParse ⟨some "Eng", some "Acme", some "REJECTEDz", none, none, none⟩
      = .ok { title := "Eng", company := "Acme", status := "REJECTEDz",
              description := none, notes := none, deadline := none } :=
  ⟨rfl, rfl⟩

/-- Helper: a required min-1 string field that is missing or empty always
contributes an issue whose path is the field name. -/
theorem requiredStringIssues_path (f m : String) (o : Option String)
    (h : missingOrEmpty o) :
    ∃ e ∈ requiredStringIssues f m o, e.path = f := by
  rcases h with h | h <;> subst h
  · exact ⟨⟨f, "Required"⟩, by simp [requiredStringIssues]⟩
  · exact ⟨⟨f, m⟩, by simp [requiredStringIssues]⟩

/-- Helper: the issue list of a missing or empty required field is
nonempty. -/
theorem requiredStringIssues_ne_nil (f m : String) (o : Option String)
    (h : missingOrEmpty o) : requiredStringIssues f m o ≠ [] := by
  rcases h with h | h <;> subst h <;> simp [requiredStringIssues]

/-- C5: for every job request body whose title or company field is missing
or empty, the validation middleware halts the chain with 400 and the
formatted error list (so the endpoint handler is never invoked — a
`MwResult.halt` result means `next()` was not called), and the error list
contains an entry whose path is the name of the offending field. -/
theorem validateZod_missing_required_field_400 (b : RawJobBody)
    (h : missingOrEmpty b.title ∨ missingOrEmpty b.company) :
    validateZod b = MwResult.halt 400 (RespBody.errors (jobSchemaIssues b)) ∧
    (missingOrEmpty b.title → ∃ e ∈ jobSchemaIssues b, e.path = "title") ∧
    (missingOrEmpty b.company → ∃ e ∈ jobSchemaIssues b, e.path = "company") := by
  have hne : jobSchemaIssues b ≠ [] := by
    intro heq
    unfold jobSchemaIssues at heq
    rw [List.append_eq_nil, List.append_eq_nil] at heq
    rcases h with h | h
    · exact requiredStringIssues_ne_nil _ _ _ h heq.1.1
    · exact requiredStringIssues_ne_nil _ _ _ h heq.1.2
  refine ⟨?_, ?_, ?_⟩
  · unfold validateZod jobSchemaParse
    rw [if_neg hne]
  · intro ht
    obtain ⟨e, he, hp⟩ := requiredStringIssues_path "title" "Title is required" b.title ht
    exact ⟨e, List.mem_append_left _ (List.mem_append_left _ he), hp⟩
  · intro hc
    obtain ⟨e, he, hp⟩ := requiredStringIssues_path "company" "Company is required" b.company hc
    exact ⟨e, List.mem_append_left _ (List.mem_append_right _ he), hp⟩

/-- Witness for C5: a concrete body with title absent and company empty is
halted with 400 and carries issues on both paths. -/
theorem validateZod_missing_required_field_400_witness :
    validateZod ⟨none, some "", some "WISHLIST", none, none, none⟩
      = MwResult.halt 400
          (RespBody.errors (jobSchemaIssues ⟨none, some "", some "WISHLIST", none, none, none⟩)) ∧
    (missingOrEmpty (none : Option String) →
      ∃ e ∈ jobSchemaIssues ⟨none, some "", some "WISHLIST", none, none, none⟩, e.path = "title") ∧
    (missingOrEmpty (some "") →
      ∃ e ∈ jobSchemaIssues ⟨none, some "", some "WISHLIST", none, none, none⟩, e.path = "company") :=
  validateZod_missing_required_field_400 ⟨none, some "", some "WISHLIST", none, none, none⟩
    (Or.inl (Or.inl rfl))

/-- C6: every request whose Authorization header is missing, whose header
does not start with the literal "Bearer ", or whose extracted token fails
verification (whatever the verifier — `none` covers missing, malformed,
expired and badly signed tokens alike) is answered 401 with the one body
carrying the message "Unauthorized", and the chain halts, so the downstream
handler is never invoked and the three causes are indistinguishable. -/
theorem authMiddleware_uniform_401 (verify : String → Option UserCtx)
    (header : Option String)
    (h : header = none ∨ ∃ s, header = some s ∧
        (s.startsWith "Bearer " = false ∨ verify (bearerToken s) = none)) :
    authMiddleware verify header = MwResult.halt 401 (RespBody.err "Unauthorized") := by
  rcases h with h | ⟨s, rfl, h⟩
  · subst h; rfl
  · unfold authMiddleware
    cases hb : s.startsWith "Bearer " with
    | false => simp [hb]
    | true =>
      rcases h with h | h
      · rw [hb] at h; cases h
      · simp [hb, h]

/-- Witness for C6: a verifier that rejects everything and a header with a
non-Bearer scheme are answered with exactly the uniform 401 body. -/
theorem authMiddleware_uniform_401_witness :
    authMiddleware (fun _ => none) (some "Token abc")
      = MwResult.halt 401 (RespBody.err "Unauthorized") :=
  authMiddleware_uniform_401 (fun _ => none) (some "Token abc")
    (Or.inr ⟨"Token abc", rfl, Or.inr rfl⟩)

/-- Helper: after `prisma.job.delete` removed the record with a given id, a
`findFirst` filtering on that id finds nothing, whatever the owner filter
the controller managed to pass. -/
theorem jobFindFirst_after_delete (db : DB) (i : String) :
    jobFindFirst (jobDelete db i) (some i) none = none := by
  unfold jobFindFirst jobDelete
  rw [List.find?_eq_none]
  intro j hj
  simp only [List.mem_filter] at hj
  simp only [matchesFilters, Bool.and_true]
  simpa using hj.2

/-- C7: when a DELETE /jobs/:id succeeds (200) and the same caller repeats
the DELETE on the same id against the resulting store with no intervening
creation, the second call answers 404 with the not-found body, never 200. -/
theorem deleteJob_second_call_404 (ctx : UserCtx) (i : String) (db : DB)
    (h : (deleteJob ctx i db).1.1 = 200) :
    (deleteJob ctx i (deleteJob ctx i db).2).1 = (404, RespBody.err "Job not found") := by
  cases hf : jobFindFirst db (some i) (UserCtx.idProp ctx) with
  | none => simp [deleteJob, hf] at h
  | some j =>
    have h2 : (deleteJob ctx i db).2 = jobDelete db i := by
      simp [deleteJob, hf]
    rw [h2]
    simp [deleteJob, UserCtx.idProp, jobFindFirst_after_delete]

/-- Witness for C7: deleting the one stored job succeeds with 200, and the
immediate repeat of the same DELETE answers 404. -/
theorem deleteJob_second_call_404_witness :
    ((deleteJob ⟨1⟩ "1" ⟨[], [⟨"1", "Eng", "Acme", "WISHLIST", none, none, none, 1⟩], 2, 2⟩).1.1
      = 200) ∧
    (deleteJob ⟨1⟩ "1"
      (deleteJob ⟨1⟩ "1" ⟨[], [⟨"1", "Eng", "Acme", "WISHLIST", none, none, none, 1⟩], 2, 2⟩).2).1
      = (404, RespBody.err "Job not found") :=
  ⟨by decide,
   deleteJob_second_call_404 ⟨1⟩ "1"
     ⟨[], [⟨"1", "Eng", "Acme", "WISHLIST", none, none, none, 1⟩], 2, 2⟩ (by decide)⟩

/-- Helper: the bcrypt hash of a plaintext is never the plaintext itself
(the stored string is strictly longer). -/
theorem bcryptHash_ne_plaintext (pw : String) : bcryptHash pw ≠ pw := by
  intro hcontra
  have hlen := congrArg String.length hcontra
  rw [bcryptHash, String.length_append] at hlen
  have h7 : ("$2a$10$" : String).length = 7 := rfl
  omega

/-- Helper: on a present, non-empty email and password and a store without
that email, createUser hashes the password and answers 201 with the record
the store produced. -/
theorem createUser_success_eq (email pw : String) (name : Option String) (db : DB)
    (he : (email == "") = false) (hp : (pw == "") = false)
    (hu : db.users.any (fun u => u.email == email) = false) :
    createUser (some email) (some pw) name db
      = ((201, RespBody.user
            { id := db.nextUserId, email := email, password := bcryptHash pw, name := name }),
         { db with
             users := db.users ++
               [{ id := db.nextUserId, email := email, password := bcryptHash pw, name := name }],
             nextUserId := db.nextUserId + 1 }) := by
  simp [createUser, he, hp, userCreate, hu]

/-- C8: for every valid signup payload (email and password present and
non-empty, email not already taken), the password stored for the created
user differs from the submitted plaintext, and the bcrypt compare used by
loginUser accepts the plaintext against the stored value. -/
theorem createUser_stores_hash_not_plaintext (email pw : String) (name : Option String)
    (db : DB)
    (he : (email == "") = false) (hp : (pw == "") = false)
    (hu : db.users.any (fun u => u.email == email) = false) :
    ∃ u db2,
      createUser (some email) (some pw) name db = ((201, RespBody.user u), db2) ∧
      u.password ≠ pw ∧
      bcryptCompare pw u.password = true := by
  refine ⟨_, _, createUser_success_eq email pw name db he hp hu, ?_, ?_⟩
  · exact bcryptHash_ne_plaintext pw
  · simp [bcryptCompare]

/-- Witness for C8: the concrete signup from the spec scenario stores a
hash that is not the plaintext and that compare accepts. -/
theorem createUser_stores_hash_not_plaintext_witness :
    ∃ u db2,
      createUser (some "a@x.com") (some "pw123456") none ⟨[], [], 1, 1⟩
        = ((201, RespBody.user u), db2) ∧
      u.password ≠ "pw123456" ∧
      bcryptCompare "pw123456" u.password = true :=
  createUser_stores_hash_not_plaintext "a@x.com" "pw123456" none ⟨[], [], 1, 1⟩
    (by decide) (by decide) (by decide)

/-- Helper: two find? runs with pointwise equal predicates agree. -/
theorem find_eq_of_pred_eq {α : Type} {p q : α → Bool} (h : ∀ a, p a = q a) :
    ∀ l : List α, l.find? p = l.find? q := by
  intro l
  induction l with
  | nil => rfl
  | cons a t ih =>
    simp only [List.find?, h a]
    cases q a
    · exact ih
    · rfl

/-- C9: the optional notes and deadline fields are validated by jobSchema
but discarded by the handlers: the data object createJob hands to the store
carries no notes and no deadline whatever the validated body holds, and a
successful PUT /jobs/:id leaves the stored records notes and deadline
exactly as they were. -/
theorem handlers_discard_notes_and_deadline (ctx : UserCtx) (body : JobBody) (db : DB)
    (i : String) (j : Job)
    (hfind : jobFindFirst db (some i) (UserCtx.idProp ctx) = some j) :
    (createJobData ctx body).notes = none ∧
    (createJobData ctx body).deadline = none ∧
    ∃ db2 j2,
      updateJob ctx i body db = ((200, RespBody.job j2), db2) ∧
      j2.notes = j.notes ∧ j2.deadline = j.deadline := by
  refine ⟨rfl, rfl, ?_⟩
  have hfind2 : db.jobs.find? (fun k => k.id == i) = some j := by
    have hsame := find_eq_of_pred_eq
      (p := matchesFilters (some i) (UserCtx.idProp ctx)) (q := fun k => k.id == i)
      (fun a => by simp [matchesFilters, UserCtx.idProp]) db.jobs
    unfold jobFindFirst at hfind
    rw [hsame] at hfind
    exact hfind
  have hstep : updateJob ctx i body db
      = ((200, RespBody.job
            { j with title := body.title, description := body.description,
                     company := body.company, status := body.status }),
         { db with jobs := db.jobs.map (fun k =>
             if k.id == i then
               { j with title := body.title, description := body.description,
                        company := body.company, status := body.status }
             else k) }) := by
    simp [updateJob, hfind, jobUpdate, hfind2, updateJobData]
  exact ⟨_, _, hstep, rfl, rfl⟩

/-- Witness for C9: a PUT whose body carries notes and a deadline leaves
the stored notes and deadline of the record untouched, and the create data
for the same body carries neither. -/
theorem handlers_discard_notes_and_deadline_witness :
    (createJobData ⟨1⟩ ⟨"Eng", "Acme", "APPLIED", none, some "new note", some "2026-01-01"⟩).notes
      = none ∧
    (createJobData ⟨1⟩ ⟨"Eng", "Acme", "APPLIED", none, some "new note", some "2026-01-01"⟩).deadline
      = none ∧
    ∃ db2 j2,
      updateJob ⟨1⟩ "1" ⟨"Eng", "Acme", "APPLIED", none, some "new note", some "2026-01-01"⟩
        ⟨[], [⟨"1", "Old", "Acme", "WISHLIST", none, some "keep", some "2025-12-31", 1⟩], 2, 2⟩
        = ((200, RespBody.job j2), db2) ∧
      j2.notes = Job.notes ⟨"1", "Old", "Acme", "WISHLIST", none, some "keep", some "2025-12-31", 1⟩ ∧
      j2.deadline = Job.deadline ⟨"1", "Old", "Acme", "WISHLIST", none, some "keep", some "2025-12-31", 1⟩ :=
  handlers_discard_notes_and_deadline ⟨1⟩
    ⟨"Eng", "Acme", "APPLIED", none, some "new note", some "2026-01-01"⟩
    ⟨[], [⟨"1", "Old", "Acme", "WISHLIST", none, some "keep", some "2025-12-31", 1⟩], 2, 2⟩
    "1" ⟨"1", "Old", "Acme", "WISHLIST", none, some "keep", some "2025-12-31", 1⟩ (by decide)

/-- C10: the 201 response of POST /users and the 200 response of GET /users
serialise the stored user records verbatim — in particular each response
carries the stored (hashed) password field; nothing is withheld: the 201
body is exactly the record the store created (whose password field is the
bcrypt hash) and GET /users returns the full list of stored records. -/
theorem user_responses_expose_stored_records (email pw : String) (name : Option String)
    (db : DB)
    (he : (email == "") = false) (hp : (pw == "") = false)
    (hu : db.users.any (fun u => u.email == email) = false) :
    ∃ u db2,
      createUser (some email) (some pw) name db = ((201, RespBody.user u), db2) ∧
      u.password = bcryptHash pw ∧
      db2.users = db.users ++ [u] ∧
      listUsers db2 = (200, RespBody.users (db.users ++ [u])) := by
  exact ⟨_, _, createUser_success_eq email pw name db he hp hu, rfl, rfl, rfl⟩

/-- Witness for C10: after the concrete signup, the 201 body is the stored
record with the hashed password and GET /users lists exactly that record. -/
theorem user_responses_expose_stored_records_witness :
    ∃ u db2,
      createUser (some "a@x.com") (some "pw123456") none ⟨[], [], 1, 1⟩
        = ((201, RespBody.user u), db2) ∧
      u.password = bcryptHash "pw123456" ∧
      db2.users = [] ++ [u] ∧
      listUsers db2 = (200, RespBody.users ([] ++ [u])) :=
  user_responses_expose_stored_records "a@x.com" "pw123456" none ⟨[], [], 1, 1⟩
    (by decide) (by decide) (by decide)
